import Mathlib

/-!
Verification of the configuration layer of a dual-stack NAT engine
(`nat/config.go`).

The Go source is shallowly embedded: machine integers become `Nat` (the
verified properties never overflow their Go widths), `time.Duration` becomes
`Int` nanoseconds, byte arrays become `Fin n → Nat`, Go slices that may be
`nil` become `Option (List Nat)`, fallible functions return `Except`, and a
Go run-time panic (out-of-range index) is modelled as `Option.none` at the
outermost layer.  Calls into the Go standard library (`net.ParseCIDR`,
`net.ParseIP`) are abstracted as oracle values describing the library's
result for the given input string; everything downstream of those calls is
translated from the repository source.
-/

namespace NffNat

abbrev IPv4Address := Nat

abbrev IPv6Address := Fin 16 → Nat

abbrev MACAddress := Fin 6 → Nat

def zeroIPv6Addr : IPv6Address := fun _ => 0

def zeroMAC : MACAddress := fun _ => 0

/-- `types.BytesToIPv4 a b c d` from nff-go: the four bytes packed into a
32-bit value with `a` as the least significant byte. -/
def BytesToIPv4 (a b c d : Nat) : IPv4Address :=
  a ||| (b <<< 8) ||| (c <<< 16) ||| (d <<< 24)

/-- `convertIPv4` from `nat/config.go`.  The Go function takes a byte slice
that may be `nil` (modelled by `Option`): it returns an error when the slice
is `nil` or longer than 4 bytes, and otherwise reads `in[3], in[2], in[1],
in[0]`.  For a non-nil slice shorter than 4 bytes the read `in[3]` is out of
range and the Go program panics, modelled by the result `none`. -/
def convertIPv4 (b : Option (List Nat)) : Option (Except String IPv4Address) :=
  match b with
  | none =>
      some (.error ("Only IPv4 addresses are supported now while your address has 0 bytes"))
  | some l =>
      if l.length > 4 then
        some (.error ("Only IPv4 addresses are supported now while your address has "
          ++ toString l.length ++ " bytes"))
      else
        match l.get? 3, l.get? 2, l.get? 1, l.get? 0 with
        | some b3, some b2, some b1, some b0 => some (.ok (BytesToIPv4 b3 b2 b1 b0))
        | _, _, _, _ => none

/-- Durations in `nat/config.go` are `time.Duration`, i.e. nanosecond counts;
one second is `10^9`. -/
def nsPerSecond : Int := 1000000000

/-- `connectionTimeout = 1 * time.Minute`. -/
def connectionTimeout : Int := 60 * nsPerSecond

/-- `portReuseTimeout = 1 * time.Second`. -/
def portReuseTimeout : Int := 1 * nsPerSecond

/-- `portReuseSetLastusedTime = time.Duration(portReuseTimeout - connectionTimeout)`. -/
def portReuseSetLastusedTime : Int := portReuseTimeout - connectionTimeout

structure ipv4Subnet where
  Addr : IPv4Address
  Mask : IPv4Address
  addressAcquired : Bool
deriving DecidableEq

/-- `(subnet *ipv4Subnet) checkAddrWithingSubnet(addr)`:
`addr&subnet.Mask == subnet.Addr&subnet.Mask`. -/
def ipv4Subnet.checkAddrWithingSubnet (subnet : ipv4Subnet) (addr : IPv4Address) : Bool :=
  addr &&& subnet.Mask == subnet.Addr &&& subnet.Mask

structure ipv6Subnet where
  Addr : IPv6Address
  Mask : IPv6Address
  addressAcquired : Bool
deriving DecidableEq

/-- `(subnet *ipv6Subnet) andMask(addr)`: bytewise AND of `addr` with
`subnet.Mask`. -/
def ipv6Subnet.andMask (subnet : ipv6Subnet) (addr : IPv6Address) : IPv6Address :=
  fun i => addr i &&& subnet.Mask i

/-- `(subnet *ipv6Subnet) checkAddrWithingSubnet(addr)`:
`subnet.andMask(addr) == subnet.andMask(subnet.Addr)`. -/
def ipv6Subnet.checkAddrWithingSubnet (subnet : ipv6Subnet) (addr : IPv6Address) : Bool :=
  decide (subnet.andMask addr = subnet.andMask subnet.Addr)

structure hostPort where
  Addr4 : IPv4Address
  Addr6 : IPv6Address
  Port : Nat
  ipv6 : Bool
deriving DecidableEq

structure protocolId where
  id : Nat
  ipv6 : Bool
deriving DecidableEq

structure forwardedPort where
  Port : Nat
  Destination : hostPort
  Protocol : protocolId
deriving DecidableEq

/-- The `isAddrZero` local of `checkPortForwarding`: whether the rule's
destination is the unspecified address of its own family. -/
def forwardedPort.destinationIsZero (fp : forwardedPort) : Bool :=
  if fp.Destination.ipv6 then decide (fp.Destination.Addr6 = zeroIPv6Addr)
  else decide (fp.Destination.Addr4 = 0)

inductive interfaceType where
  | iPUBLIC
  | iPRIVATE
deriving DecidableEq

/-- The configuration fields of `ipPort` that the load-time validation reads
or writes.  Runtime-only fields (lookup tables, file handles, the `opposite`
pointer) are modelled separately; where the Go code follows the `opposite`
pointer the opposite port is passed explicitly. -/
structure ipPort where
  Index : Nat
  Subnet : ipv4Subnet
  Subnet6 : ipv6Subnet
  Vlan : Nat
  KNIName : String
  ForwardPorts : List forwardedPort
  DstMACAddress : MACAddress
  staticArpMode : Bool
  Typ : interfaceType
deriving DecidableEq

structure portPair where
  PrivatePort : ipPort
  PublicPort : ipPort
deriving DecidableEq

/-- The errors `ReadConfig` and `checkPortForwarding` can return, as a
structured taxonomy; each constructor carries the data the corresponding Go
error message interpolates. -/
inductive ConfigError where
  | vlanAsymmetry (privIndex pubIndex : Nat) (privHasVlan : Bool)
  | vlanWithKni
  | dhcpHostNameMissing (portIndex : Nat)
  | protocolFamilyMismatch
  | kniNameMissing (portIndex : Nat)
  | kniPortMismatch (fpPort destPort : Nat)
  | forwardOnPrivate
  | destOutsideSubnet4 (destAddr : IPv4Address) (subnet : ipv4Subnet)
  | destOutsideSubnet6 (destAddr : IPv6Address) (subnet : ipv6Subnet)
deriving DecidableEq

/-- The process-wide flags `NeedDHCP` and `NeedKNI` that `ReadConfig` and
`checkPortForwarding` set. -/
structure ValState where
  NeedDHCP : Bool
  NeedKNI : Bool
deriving DecidableEq

/-- `(port *ipPort) checkPortForwarding(fp)` from `nat/config.go`.  `opposite`
is the port the Go code reaches through `port.opposite`.  Mutation of `fp`
(destination-port defaulting) is modelled by returning the updated rule, and
mutation of the global `NeedKNI` by threading `ValState`. -/
def ipPort.checkPortForwarding (port opposite : ipPort) (fp : forwardedPort)
    (st : ValState) : Except ConfigError (forwardedPort × ValState) :=
  if fp.Destination.ipv6 ≠ fp.Protocol.ipv6 then
    .error .protocolFamilyMismatch
  else if fp.destinationIsZero then
    if port.KNIName = "" then
      .error (.kniNameMissing port.Index)
    else if fp.Destination.Port ≠ fp.Port then
      .error (.kniPortMismatch fp.Port fp.Destination.Port)
    else
      .ok (fp, { st with NeedKNI := true })
  else
    if port.Typ = .iPRIVATE then
      .error .forwardOnPrivate
    else if fp.Destination.ipv6 then
      if ¬ opposite.Subnet6.checkAddrWithingSubnet fp.Destination.Addr6 then
        .error (.destOutsideSubnet6 fp.Destination.Addr6 opposite.Subnet6)
      else if fp.Destination.Port = 0 then
        .ok ({ fp with Destination := { fp.Destination with Port := fp.Port } }, st)
      else
        .ok (fp, st)
    else
      if ¬ opposite.Subnet.checkAddrWithingSubnet fp.Destination.Addr4 then
        .error (.destOutsideSubnet4 fp.Destination.Addr4 opposite.Subnet)
      else if fp.Destination.Port = 0 then
        .ok ({ fp with Destination := { fp.Destination with Port := fp.Port } }, st)
      else
        .ok (fp, st)

/-- The `for fpi := range port.ForwardPorts` loop of `ReadConfig`: rules are
checked left to right and the first error aborts the whole load. -/
def checkForwardList (port opposite : ipPort) :
    List forwardedPort → ValState → Except ConfigError (List forwardedPort × ValState)
  | [], st => .ok ([], st)
  | fp :: rest, st =>
    match port.checkPortForwarding opposite fp st with
    | .error e => .error e
    | .ok (fp', st') =>
      match checkForwardList port opposite rest st' with
      | .error e => .error e
      | .ok (rest', st'') => .ok (fp' :: rest', st'')

/-- The `if !port.Subnet.addressAcquired` block of `ReadConfig`: an interface
with no statically configured IPv4 address needs the config-level host name
for DHCP; when present the process-wide `NeedDHCP` flag is raised. -/
def checkDhcpNeed (hostName : String) (port : ipPort) (st : ValState) :
    Except ConfigError ValState :=
  if port.Subnet.addressAcquired = false then
    if hostName = "" then .error (.dhcpHostNameMissing port.Index)
    else .ok { st with NeedDHCP := true }
  else .ok st

/-- The body of the per-port loop (`for pi := 0; pi < 2; pi++`) of
`ReadConfig`: DHCP check, `NeedKNI` flag, forwarding-rule checks, static-ARP
activation. -/
def validatePort (hostName : String) (port opposite : ipPort) (st : ValState) :
    Except ConfigError (ipPort × ValState) :=
  match checkDhcpNeed hostName port st with
  | .error e => .error e
  | .ok st0 =>
    let st1 := if port.KNIName ≠ "" then { st0 with NeedKNI := true } else st0
    match checkForwardList port opposite port.ForwardPorts st1 with
    | .error e => .error e
    | .ok (fps, st2) =>
      let port1 := { port with ForwardPorts := fps }
      let port2 :=
        if port1.DstMACAddress ≠ zeroMAC then { port1 with staticArpMode := true }
        else port1
      .ok (port2, st2)

/-- The VLAN symmetry check of `ReadConfig` (both ports of a pair must agree
on having a VLAN tag). -/
def checkVlanSymmetry (pp : portPair) : Except ConfigError Unit :=
  if pp.PrivatePort.Vlan = 0 ∧ pp.PublicPort.Vlan ≠ 0 then
    .error (.vlanAsymmetry pp.PrivatePort.Index pp.PublicPort.Index false)
  else if pp.PrivatePort.Vlan ≠ 0 ∧ pp.PublicPort.Vlan = 0 then
    .error (.vlanAsymmetry pp.PrivatePort.Index pp.PublicPort.Index true)
  else
    .ok ()

/-- The VLAN/KNI exclusion check of `ReadConfig`, exactly as the source
writes it: both disjuncts of the Go condition test `pp.PrivatePort`, so the
public port is never examined here. -/
def checkVlanKni (pp : portPair) : Except ConfigError Unit :=
  if (pp.PrivatePort.Vlan ≠ 0 ∧ pp.PrivatePort.KNIName ≠ "") ∨
     (pp.PrivatePort.Vlan ≠ 0 ∧ pp.PrivatePort.KNIName ≠ "") then
    .error .vlanWithKni
  else
    .ok ()

/-- The per-pair body of `ReadConfig`'s main loop: VLAN symmetry, VLAN/KNI
exclusion, then the private port followed by the public port (whose
`opposite` pointers refer to each other). -/
def validatePortPair (hostName : String) (pp : portPair) (st : ValState) :
    Except ConfigError (portPair × ValState) :=
  match checkVlanSymmetry pp with
  | .error e => .error e
  | .ok _ =>
    match checkVlanKni pp with
    | .error e => .error e
    | .ok _ =>
      match validatePort hostName pp.PrivatePort pp.PublicPort st with
      | .error e => .error e
      | .ok (priv, st1) =>
        match validatePort hostName pp.PublicPort pp.PrivatePort st1 with
        | .error e => .error e
        | .ok (pub, st2) => .ok ({ PrivatePort := priv, PublicPort := pub }, st2)

structure Config where
  HostName : String
  PortPairs : List portPair
deriving DecidableEq

/-- The validation part of `ReadConfig` over the whole pair list (file IO and
JSON decoding stripped): pairs are validated in order and the first error
aborts. -/
def validateConfigPairs (hostName : String) :
    List portPair → ValState → Except ConfigError (List portPair × ValState)
  | [], st => .ok ([], st)
  | pp :: rest, st =>
    match validatePortPair hostName pp st with
    | .error e => .error e
    | .ok (pp', st') =>
      match validateConfigPairs hostName rest st' with
      | .error e => .error e
      | .ok (rest', st'') => .ok (pp' :: rest', st'')

def validateConfig (c : Config) (st : ValState) :
    Except ConfigError (Config × ValState) :=
  match validateConfigPairs c.HostName c.PortPairs st with
  | .error e => .error e
  | .ok (pps, st') => .ok ({ c with PortPairs := pps }, st')

/-- Oracle for the Go pipeline `net.ParseCIDR` / `net.ParseIP` on the string
fed to `ipv4Subnet.UnmarshalJSON`: either `ParseCIDR` succeeded (carrying
`ip.To4()`, which is `nil` for a non-IPv4 address, and `ipnet.Mask`), or it
failed and `ParseIP` succeeded (carrying `ip.To4()`), or both failed. -/
inductive goParseResult4 where
  | cidrOk (to4 : Option (List Nat)) (mask : List Nat)
  | plainOk (to4 : Option (List Nat))
  | bad
deriving DecidableEq

/-- Oracle for the same library pipeline in `ipv6Subnet.UnmarshalJSON`,
carrying `ip.To16()` and, for the CIDR case, `ipnet.Mask`. -/
inductive goParseResult6 where
  | cidrOk (to16 : Option (List Nat)) (mask : List Nat)
  | plainOk (to16 : Option (List Nat))
  | bad
deriving DecidableEq

/-- Go's `copy(dst[:], src)` into a 16-byte array: positions covered by `src`
take its bytes, the rest keep `dst`. -/
def copyBytes (dst : IPv6Address) (src : List Nat) : IPv6Address :=
  fun i => (src.get? i.val).getD (dst i)

/-- The all-ones IPv6 mask literal of `ipv6Subnet.UnmarshalJSON`. -/
def ipv6FullMask : IPv6Address := fun _ => 0xff

/-- `(out *ipv4Subnet) UnmarshalJSON` after the JSON string has been decoded
to `s` (decoding failures are outside this model): the literal `"dhcp"`, then
the CIDR branch, then the plain-address branch, each converting through
`convertIPv4`; `none` propagates a panic of `convertIPv4`. -/
def ipv4Subnet.UnmarshalJSON (s : String) (pr : goParseResult4) :
    Option (Except String ipv4Subnet) :=
  if s = "dhcp" then some (.ok ⟨0, 0, false⟩)
  else
    match pr with
    | .cidrOk to4 mask =>
      match convertIPv4 to4 with
      | none => none
      | some (.error e) => some (.error e)
      | some (.ok addr) =>
        match convertIPv4 (some mask) with
        | none => none
        | some (.error e) => some (.error e)
        | some (.ok m) => some (.ok ⟨addr, m, true⟩)
    | .plainOk to4 =>
      match convertIPv4 to4 with
      | none => none
      | some (.error e) => some (.error e)
      | some (.ok addr) => some (.ok ⟨addr, 0xffffffff, true⟩)
    | .bad => some (.error ("Failed to parse address " ++ s))

/-- `(out *ipv6Subnet) UnmarshalJSON` after JSON string decoding: the literal
`"dhcp"`, then the CIDR branch (rejecting a `nil` `To16`, then copying
address and mask bytes), then the plain-address branch with the all-ones
mask. -/
def ipv6Subnet.UnmarshalJSON (s : String) (pr : goParseResult6) :
    Except String ipv6Subnet :=
  if s = "dhcp" then .ok ⟨zeroIPv6Addr, zeroIPv6Addr, false⟩
  else
    match pr with
    | .cidrOk to16 mask =>
      match to16 with
      | none => .error ("Bad IPv6 address: " ++ s)
      | some a => .ok ⟨copyBytes zeroIPv6Addr a, copyBytes zeroIPv6Addr mask, true⟩
    | .plainOk to16 =>
      match to16 with
      | none => .error ("Bad IPv6 address: " ++ s)
      | some a => .ok ⟨copyBytes zeroIPv6Addr a, ipv6FullMask, true⟩
    | .bad => .error ("Failed to parse address " ++ s)

/-- `Tuple`: IPv4 translation-table key/value. -/
structure Tuple where
  addr : IPv4Address
  port : Nat
deriving DecidableEq

/-- `Tuple6`: IPv6 translation-table key/value. -/
structure Tuple6 where
  addr : IPv6Address
  port : Nat
deriving DecidableEq

structure portMapEntry where
  lastused : Int
  finCount : Nat
  terminationDirection : Nat
  static : Bool
deriving DecidableEq

/-- The mutable lookup state touched by `enableStaticPortForward`: the owning
port's translation tables, the opposite port's translation tables, and the
owning port's port maps, each indexed by protocol id.  A Go `sync.Map` keyed
by `Tuple` or `Tuple6` values becomes a pair of partial functions (the two
key types never collide in one map). -/
structure natTables where
  translationTable4 : Nat → Tuple → Option Tuple
  translationTable6 : Nat → Tuple6 → Option Tuple6
  oppositeTable4 : Nat → Tuple → Option Tuple
  oppositeTable6 : Nat → Tuple6 → Option Tuple6
  portmap : Nat → Nat → portMapEntry
  portmap6 : Nat → Nat → portMapEntry

/-- `(port *ipPort) enableStaticPortForward(fp)`: install the forward mapping
in the owning port's table, the reverse mapping in the opposite port's table
when the destination is not the unspecified address, and on a PUBLIC port
mark the forwarded port's slot static (`getPortmap` selects `portmap6` for an
IPv6 protocol and `portmap` otherwise).  `now` stands for `time.Now()`. -/
def ipPort.enableStaticPortForward (port : ipPort) (fp : forwardedPort) (now : Int)
    (t : natTables) : natTables :=
  if fp.Protocol.ipv6 then
    let keyEntry : Tuple6 := ⟨port.Subnet6.Addr, fp.Port⟩
    let valEntry : Tuple6 := ⟨fp.Destination.Addr6, fp.Destination.Port⟩
    let t1 := { t with translationTable6 := fun pid k =>
      if pid = fp.Protocol.id ∧ k = keyEntry then some valEntry
      else t.translationTable6 pid k }
    let t2 :=
      if fp.Destination.Addr6 ≠ zeroIPv6Addr then
        { t1 with oppositeTable6 := fun pid k =>
          if pid = fp.Protocol.id ∧ k = valEntry then some keyEntry
          else t1.oppositeTable6 pid k }
      else t1
    if port.Typ = .iPUBLIC then
      { t2 with portmap6 := fun pid p =>
        if pid = fp.Protocol.id ∧ p = fp.Port then ⟨now, 0, 0, true⟩
        else t2.portmap6 pid p }
    else t2
  else
    let keyEntry : Tuple := ⟨port.Subnet.Addr, fp.Port⟩
    let valEntry : Tuple := ⟨fp.Destination.Addr4, fp.Destination.Port⟩
    let t1 := { t with translationTable4 := fun pid k =>
      if pid = fp.Protocol.id ∧ k = keyEntry then some valEntry
      else t.translationTable4 pid k }
    let t2 :=
      if fp.Destination.Addr4 ≠ 0 then
        { t1 with oppositeTable4 := fun pid k =>
          if pid = fp.Protocol.id ∧ k = valEntry then some keyEntry
          else t1.oppositeTable4 pid k }
      else t1
    if port.Typ = .iPUBLIC then
      { t2 with portmap := fun pid p =>
        if pid = fp.Protocol.id ∧ p = fp.Port then ⟨now, 0, 0, true⟩
        else t2.portmap pid p }
    else t2

/-- `(port *ipPort) initPortPortForwardingEntries()`: install every rule of
the port, in order. -/
def ipPort.initPortPortForwardingEntries (port : ipPort) (now : Int)
    (t : natTables) : natTables :=
  port.ForwardPorts.foldl (fun acc fp => port.enableStaticPortForward fp now acc) t

/-- Initial value of the process-wide flags before `ReadConfig` runs. -/
def stInit : ValState := ⟨false, false⟩

/-- A private port with the subnet `192.168.1.0/24` statically configured,
used to instantiate the validation theorems. -/
def samplePort : ipPort :=
  ⟨0, ⟨0xC0A80100, 0xFFFFFF00, true⟩, ⟨zeroIPv6Addr, zeroIPv6Addr, true⟩,
    0, "", [], zeroMAC, false, .iPRIVATE⟩

def samplePublicPort : ipPort :=
  { samplePort with Index := 1, Typ := .iPUBLIC }

/-- A port whose IPv4 subnet is the `"dhcp"` token (address not acquired). -/
def dhcpPort : ipPort :=
  { samplePort with Subnet := ⟨0, 0, false⟩ }

/-- A pair whose PUBLIC port combines VLAN tag 7 with the KNI name `"kni0"`,
while the private port carries VLAN tag 7 and no KNI name. -/
def c3Pair : portPair :=
  ⟨{ samplePort with Vlan := 7 },
   { samplePublicPort with Vlan := 7, KNIName := "kni0" }⟩

/-- A pair with asymmetric VLAN tags: PRIVATE 0, PUBLIC 7. -/
def c4Pair : portPair :=
  ⟨samplePort, { samplePublicPort with Vlan := 7 }⟩

/-- A TCP rule (protocol id 6, IPv4) whose destination is an IPv6 endpoint. -/
def sampleRuleMismatch : forwardedPort :=
  ⟨8080, ⟨0, zeroIPv6Addr, 8080, true⟩, ⟨6, false⟩⟩

/-- A TCP rule forwarding port 8080 to `0.0.0.0:9090` (ports differ). -/
def sampleRuleBadPort : forwardedPort :=
  ⟨8080, ⟨0, zeroIPv6Addr, 9090, false⟩, ⟨6, false⟩⟩

/-- A TCP rule forwarding port 8080 to `192.168.1.5:80`. -/
def sampleRule4 : forwardedPort :=
  ⟨8080, ⟨0xC0A80105, zeroIPv6Addr, 80, false⟩, ⟨6, false⟩⟩

/-- Lookup state with empty tables and all-zero port-map slots. -/
def emptyTables : natTables :=
  ⟨fun _ _ => none, fun _ _ => none, fun _ _ => none, fun _ _ => none,
   fun _ _ => ⟨0, 0, 0, false⟩, fun _ _ => ⟨0, 0, 0, false⟩⟩

/-! ## Theorems -/

/-- A `checkPortForwarding` success never changes the `NeedDHCP` flag: the
only state update it performs raises `NeedKNI`. -/
theorem checkPortForwarding_ok_needDHCP {port opposite : ipPort} {fp fp' : forwardedPort}
    {st st' : ValState}
    (h : port.checkPortForwarding opposite fp st = .ok (fp', st')) :
    st'.NeedDHCP = st.NeedDHCP := by
  unfold ipPort.checkPortForwarding at h
  split_ifs at h <;> simp_all <;> simp [← h.2]

/-- The rule-checking loop never changes the `NeedDHCP` flag. -/
theorem checkForwardList_ok_needDHCP {port opposite : ipPort} :
    ∀ {l : List forwardedPort} {st st' : ValState} {l' : List forwardedPort},
    checkForwardList port opposite l st = .ok (l', st') →
    st'.NeedDHCP = st.NeedDHCP := by
  intro l
  induction l with
  | nil =>
    intro st st' l' h
    simp only [checkForwardList] at h
    cases h
    rfl
  | cons fp rest ih =>
    intro st st' l' h
    simp only [checkForwardList] at h
    cases hcp : port.checkPortForwarding opposite fp st with
    | error e => simp only [hcp] at h; cases h
    | ok p =>
      obtain ⟨fp1, st1⟩ := p
      simp only [hcp] at h
      cases hrest : checkForwardList port opposite rest st1 with
      | error e => simp only [hrest] at h; cases h
      | ok q =>
        obtain ⟨rest1, st2⟩ := q
        simp only [hrest] at h
        cases h
        rw [ih hrest, checkPortForwarding_ok_needDHCP hcp]

/-- Rules are validated left to right: once a prefix passes and the next rule
fails, the whole loop fails with that rule's error. -/
theorem checkForwardList_first_error {port opposite : ipPort} :
    ∀ {pre : List forwardedPort} {r : forwardedPort} {post : List forwardedPort}
      {st st1 : ValState} {pre' : List forwardedPort} {e : ConfigError},
    checkForwardList port opposite pre st = .ok (pre', st1) →
    port.checkPortForwarding opposite r st1 = .error e →
    checkForwardList port opposite (pre ++ r :: post) st = .error e := by
  intro pre
  induction pre with
  | nil =>
    intro r post st st1 pre' e hpre hr
    simp only [checkForwardList] at hpre
    cases hpre
    simp only [List.nil_append, checkForwardList, hr]
  | cons fp rest ih =>
    intro r post st st1 pre' e hpre hr
    simp only [checkForwardList] at hpre
    cases hcp : port.checkPortForwarding opposite fp st with
    | error e0 => simp only [hcp] at hpre; cases hpre
    | ok p =>
      obtain ⟨fp1, stA⟩ := p
      simp only [hcp] at hpre
      cases hrest : checkForwardList port opposite rest stA with
      | error e0 => simp only [hrest] at hpre; cases hpre
      | ok q =>
        obtain ⟨rest1, stB⟩ := q
        simp only [hrest] at hpre
        cases hpre
        have hi := @ih r post stA st1 rest1 e hrest hr
        simp only [List.append_eq] at hi
        simp only [List.cons_append, checkForwardList, hcp, List.append_eq, hi]

/-- `validatePort` propagates an error of the rule loop (given the DHCP check
passed and the `NeedKNI` flag was raised for a named KNI device first). -/
theorem validatePort_rules_error {hostName : String} {port opposite : ipPort}
    {st st0 : ValState} {e : ConfigError}
    (hd : checkDhcpNeed hostName port st = .ok st0)
    (hf : checkForwardList port opposite port.ForwardPorts
      (if port.KNIName ≠ "" then { st0 with NeedKNI := true } else st0) = .error e) :
    validatePort hostName port opposite st = .error e := by
  unfold validatePort
  simp only [hd, hf]

/-- A successful `validatePort` leaves `NeedDHCP` exactly as the DHCP check
set it. -/
theorem validatePort_ok_needDHCP {hostName : String} {port opposite : ipPort}
    {st st' st0 : ValState} {port' : ipPort}
    (h : validatePort hostName port opposite st = .ok (port', st'))
    (hd : checkDhcpNeed hostName port st = .ok st0) :
    st'.NeedDHCP = st0.NeedDHCP := by
  unfold validatePort at h
  simp only [hd] at h
  split at h
  · cases h
  · rename_i fps st2 hfl
    cases h
    have hmono := checkForwardList_ok_needDHCP hfl
    rw [hmono]
    split_ifs <;> rfl

/-- C3 (code evaluation): a pair whose PUBLIC port combines VLAN tag 7 with
KNI name `"kni0"` passes the whole load-time validation, because both
disjuncts of the VLAN/KNI condition in the source test the private port. -/
theorem spec_c3_public_vlan_kni_accepted :
    c3Pair.PublicPort.Vlan ≠ 0 ∧ c3Pair.PublicPort.KNIName ≠ "" ∧
    (∃ r, validatePortPair "host" c3Pair stInit = .ok r) ∧
    (∀ pp : portPair, pp.PrivatePort.Vlan = 0 ∨ pp.PrivatePort.KNIName = "" →
      checkVlanKni pp = .ok ()) := by
  refine ⟨by decide, by decide, ⟨_, rfl⟩, ?_⟩
  intro pp h
  unfold checkVlanKni
  rcases h with h | h <;> rw [if_neg] <;> simp [h]

/-- C4: the VLAN symmetry check fails exactly on pairs where one port has a
VLAN tag and the other does not (both directions), and such an asymmetric
pair makes the whole pair validation fail. -/
theorem spec_c4_vlan_symmetry :
    (∀ pp : portPair,
      (∃ e, checkVlanSymmetry pp = .error e) ↔
        ((pp.PrivatePort.Vlan = 0 ∧ pp.PublicPort.Vlan ≠ 0) ∨
         (pp.PrivatePort.Vlan ≠ 0 ∧ pp.PublicPort.Vlan = 0))) ∧
    (∀ pp : portPair,
      checkVlanSymmetry pp = .ok () ↔
        ((pp.PrivatePort.Vlan = 0 ∧ pp.PublicPort.Vlan = 0) ∨
         (pp.PrivatePort.Vlan ≠ 0 ∧ pp.PublicPort.Vlan ≠ 0))) ∧
    (∀ (hostName : String) (pp : portPair) (st : ValState),
      ((pp.PrivatePort.Vlan = 0 ∧ pp.PublicPort.Vlan ≠ 0) ∨
       (pp.PrivatePort.Vlan ≠ 0 ∧ pp.PublicPort.Vlan = 0)) →
      ∃ e, validatePortPair hostName pp st = .error e) := by
  have herr : ∀ pp : portPair,
      (∃ e, checkVlanSymmetry pp = .error e) ↔
        ((pp.PrivatePort.Vlan = 0 ∧ pp.PublicPort.Vlan ≠ 0) ∨
         (pp.PrivatePort.Vlan ≠ 0 ∧ pp.PublicPort.Vlan = 0)) := by
    intro pp
    unfold checkVlanSymmetry
    split_ifs with h1 h2
    · simp [h1]
    · simp [h2]
    · constructor
      · rintro ⟨e, he⟩; cases he
      · intro h; exact absurd h (by tauto)
  refine ⟨herr, ?_, ?_⟩
  · intro pp
    unfold checkVlanSymmetry
    split_ifs with h1 h2
    · constructor
      · intro h; cases h
      · intro h; exact absurd h (by tauto)
    · constructor
      · intro h; cases h
      · intro h; exact absurd h (by tauto)
    · constructor
      · intro _; tauto
      · intro _; rfl
  · intro hostName pp st h
    obtain ⟨e, he⟩ := (herr pp).mpr h
    refine ⟨e, ?_⟩
    unfold validatePortPair
    rw [he]

theorem witness_c4 : ∃ e, validatePortPair "" c4Pair stInit = .error e :=
  spec_c4_vlan_symmetry.2.2 "" c4Pair stInit (Or.inl ⟨rfl, by decide⟩)

/-- C2: `checkPortForwarding` fails on every rule whose destination family
differs from the protocol family; on every rule of a PRIVATE port with a
non-zero destination; on every rule with a non-zero destination lying
outside the opposite port's subnet (either family); and on every rule with
the unspecified destination on a port with no KNI name.  The rule loop
returns the first such error and `validatePort` propagates it, so the load
aborts there. -/
theorem spec_c2_port_forward_validation :
    (∀ (port opposite : ipPort) (fp : forwardedPort) (st : ValState),
      fp.Destination.ipv6 ≠ fp.Protocol.ipv6 →
      ∃ e, port.checkPortForwarding opposite fp st = .error e) ∧
    (∀ (port opposite : ipPort) (fp : forwardedPort) (st : ValState),
      port.Typ = .iPRIVATE → fp.destinationIsZero = false →
      ∃ e, port.checkPortForwarding opposite fp st = .error e) ∧
    (∀ (port opposite : ipPort) (fp : forwardedPort) (st : ValState),
      fp.Destination.ipv6 = false → fp.Destination.Addr4 ≠ 0 →
      opposite.Subnet.checkAddrWithingSubnet fp.Destination.Addr4 = false →
      ∃ e, port.checkPortForwarding opposite fp st = .error e) ∧
    (∀ (port opposite : ipPort) (fp : forwardedPort) (st : ValState),
      fp.Destination.ipv6 = true → fp.Destination.Addr6 ≠ zeroIPv6Addr →
      opposite.Subnet6.checkAddrWithingSubnet fp.Destination.Addr6 = false →
      ∃ e, port.checkPortForwarding opposite fp st = .error e) ∧
    (∀ (port opposite : ipPort) (fp : forwardedPort) (st : ValState),
      fp.destinationIsZero = true → port.KNIName = "" →
      ∃ e, port.checkPortForwarding opposite fp st = .error e) ∧
    (∀ (port opposite : ipPort) (pre : List forwardedPort) (r : forwardedPort)
        (post : List forwardedPort) (st st1 : ValState)
        (pre' : List forwardedPort) (e : ConfigError),
      checkForwardList port opposite pre st = .ok (pre', st1) →
      port.checkPortForwarding opposite r st1 = .error e →
      checkForwardList port opposite (pre ++ r :: post) st = .error e) ∧
    (∀ (hostName : String) (port opposite : ipPort) (st st0 : ValState) (e : ConfigError),
      checkDhcpNeed hostName port st = .ok st0 →
      checkForwardList port opposite port.ForwardPorts
        (if port.KNIName ≠ "" then { st0 with NeedKNI := true } else st0) = .error e →
      validatePort hostName port opposite st = .error e) := by
  refine ⟨?_, ?_, ?_, ?_, ?_, ?_, ?_⟩
  · intro port opposite fp st h
    unfold ipPort.checkPortForwarding
    split_ifs <;> first | exact ⟨_, rfl⟩ | simp_all [forwardedPort.destinationIsZero]
  · intro port opposite fp st h1 h2
    unfold ipPort.checkPortForwarding
    by_cases hfam : fp.Destination.ipv6 ≠ fp.Protocol.ipv6
    · rw [if_pos hfam]
      exact ⟨_, rfl⟩
    · rw [if_neg hfam, if_neg (by simp [h2]), if_pos h1]
      exact ⟨_, rfl⟩
  · intro port opposite fp st h1 h2 h3
    unfold ipPort.checkPortForwarding
    split_ifs <;> first | exact ⟨_, rfl⟩ | simp_all [forwardedPort.destinationIsZero]
  · intro port opposite fp st h1 h2 h3
    unfold ipPort.checkPortForwarding
    split_ifs <;> first | exact ⟨_, rfl⟩ | simp_all [forwardedPort.destinationIsZero]
  · intro port opposite fp st h1 h2
    unfold ipPort.checkPortForwarding
    split_ifs <;> first | exact ⟨_, rfl⟩ | simp_all [forwardedPort.destinationIsZero]
  · intro port opposite pre r post st st1 pre' e hpre hr
    exact checkForwardList_first_error hpre hr
  · intro hostName port opposite st st0 e hd hf
    exact validatePort_rules_error hd hf

theorem witness_c2 :
    sampleRuleMismatch.Destination.ipv6 ≠ sampleRuleMismatch.Protocol.ipv6 ∧
    ∃ e, samplePublicPort.checkPortForwarding samplePort
      sampleRuleMismatch stInit = .error e :=
  ⟨by decide,
   spec_c2_port_forward_validation.1 samplePublicPort samplePort
     sampleRuleMismatch stInit (by decide)⟩

/-- C5: on a rule with the unspecified destination, validation fails when
the destination port differs from the forwarded port, and succeeds without
changing the rule when they agree (given a matching family and a named KNI
device); on any accepted rule with a concrete destination whose destination
port is zero, the destination port of the stored rule is set to the
forwarded port. -/
theorem spec_c5_dest_port_defaulting :
    (∀ (port opposite : ipPort) (fp : forwardedPort) (st : ValState),
      fp.destinationIsZero = true → fp.Destination.Port ≠ fp.Port →
      ∃ e, port.checkPortForwarding opposite fp st = .error e) ∧
    (∀ (port opposite : ipPort) (fp : forwardedPort) (st : ValState),
      fp.destinationIsZero = true → fp.Destination.ipv6 = fp.Protocol.ipv6 →
      port.KNIName ≠ "" → fp.Destination.Port = fp.Port →
      port.checkPortForwarding opposite fp st = .ok (fp, { st with NeedKNI := true })) ∧
    (∀ (port opposite : ipPort) (fp fp' : forwardedPort) (st st' : ValState),
      port.checkPortForwarding opposite fp st = .ok (fp', st') →
      fp.destinationIsZero = false → fp.Destination.Port = 0 →
      fp'.Destination.Port = fp.Port) := by
  refine ⟨?_, ?_, ?_⟩
  · intro port opposite fp st h1 h2
    unfold ipPort.checkPortForwarding
    split_ifs <;> first | exact ⟨_, rfl⟩ | simp_all [forwardedPort.destinationIsZero]
  · intro port opposite fp st h1 h2 h3 h4
    unfold ipPort.checkPortForwarding
    split_ifs <;> simp_all
  · intro port opposite fp fp' st st' h h1 h2
    unfold ipPort.checkPortForwarding at h
    split_ifs at h <;> simp_all <;> (obtain ⟨hfp, hst⟩ := h; rw [← hfp])

theorem witness_c5 :
    sampleRuleBadPort.destinationIsZero = true ∧
    sampleRuleBadPort.Destination.Port ≠ sampleRuleBadPort.Port ∧
    ∃ e, samplePort.checkPortForwarding samplePublicPort
      sampleRuleBadPort stInit = .error e :=
  ⟨by decide, by decide,
   spec_c5_dest_port_defaulting.1 samplePort samplePublicPort
     sampleRuleBadPort stInit (by decide) (by decide)⟩

/-- C6: an interface whose IPv4 subnet was not statically configured makes
validation fail with an error carrying the port index when the config has no
host name; with a non-empty host name that check passes and every successful
validation of the port leaves the process-wide `NeedDHCP` flag raised. -/
theorem spec_c6_dhcp_hostname :
    (∀ (hostName : String) (port opposite : ipPort) (st : ValState),
      port.Subnet.addressAcquired = false → hostName = "" →
      validatePort hostName port opposite st = .error (.dhcpHostNameMissing port.Index)) ∧
    (∀ (hostName : String) (port opposite : ipPort) (st : ValState)
      (port' : ipPort) (st' : ValState),
      port.Subnet.addressAcquired = false → hostName ≠ "" →
      validatePort hostName port opposite st = .ok (port', st') →
      st'.NeedDHCP = true) := by
  constructor
  · intro hostName port opposite st hacq hname
    unfold validatePort checkDhcpNeed
    rw [if_pos hacq, if_pos hname]
  · intro hostName port opposite st port' st' hacq hname h
    have hd : checkDhcpNeed hostName port st = .ok { st with NeedDHCP := true } := by
      unfold checkDhcpNeed
      rw [if_pos hacq, if_neg hname]
    have := validatePort_ok_needDHCP h hd
    simpa using this

theorem witness_c6 :
    dhcpPort.Subnet.addressAcquired = false ∧ "" = "" ∧
    validatePort "" dhcpPort samplePublicPort stInit =
      .error (.dhcpHostNameMissing dhcpPort.Index) :=
  ⟨rfl, rfl, spec_c6_dhcp_hostname.1 "" dhcpPort samplePublicPort stInit rfl rfl⟩

/-- C1: the IPv4 containment test returns true iff `a & Mask = Addr & Mask`,
and the IPv6 containment test returns true iff the bytewise AND of the
address with the mask equals the bytewise AND of the subnet address with the
mask; the equivalence holds for every address, in range or out, the network
address and the all-ones broadcast address included. -/
theorem spec_c1_subnet_containment :
    (∀ (s : ipv4Subnet) (a : IPv4Address),
      s.checkAddrWithingSubnet a = true ↔ a &&& s.Mask = s.Addr &&& s.Mask) ∧
    (∀ (s : ipv6Subnet) (a : IPv6Address),
      s.checkAddrWithingSubnet a = true ↔
        ∀ i, a i &&& s.Mask i = s.Addr i &&& s.Mask i) := by
  constructor
  · intro s a
    simp [ipv4Subnet.checkAddrWithingSubnet]
  · intro s a
    simp only [ipv6Subnet.checkAddrWithingSubnet, decide_eq_true_eq]
    constructor
    · intro h i
      exact congrFun h i
    · intro h
      funext i
      exact h i

/-- C8: the one-time backdating offset equals `portReuseTimeout -
connectionTimeout`, i.e. minus 59 seconds; adding it to a timestamp moves the
timestamp earlier by exactly `connectionTimeout - portReuseTimeout`, so the
shifted timestamp reaches the idle-timeout threshold exactly
`portReuseTimeout` after the original moment. -/
theorem spec_c8_port_reuse_backdating :
    portReuseSetLastusedTime = portReuseTimeout - connectionTimeout ∧
    portReuseSetLastusedTime = -(59 * nsPerSecond) ∧
    (∀ t : Int, t + portReuseSetLastusedTime = t - (connectionTimeout - portReuseTimeout)) ∧
    (∀ t : Int, (t + portReuseSetLastusedTime) + connectionTimeout = t + portReuseTimeout) := by
  refine ⟨rfl, ?_, ?_, ?_⟩
  · norm_num [portReuseSetLastusedTime, portReuseTimeout, connectionTimeout, nsPerSecond]
  · intro t
    simp only [portReuseSetLastusedTime]
    ring
  · intro t
    simp only [portReuseSetLastusedTime]
    ring

/-- C7: subnet parsing dispatch: the literal `"dhcp"` yields a zero subnet
with the acquired flag down; a CIDR parse yields the parsed address and mask
with the flag up; a plain-address parse yields the address with the all-ones
mask and the flag up; a string the library cannot parse yields an error. -/
theorem spec_c7_subnet_unmarshal :
    (∀ pr, ipv4Subnet.UnmarshalJSON "dhcp" pr = some (.ok ⟨0, 0, false⟩)) ∧
    (∀ (s : String) (a0 a1 a2 a3 m0 m1 m2 m3 : Nat), s ≠ "dhcp" →
      ipv4Subnet.UnmarshalJSON s (.cidrOk (some [a0, a1, a2, a3]) [m0, m1, m2, m3]) =
        some (.ok ⟨BytesToIPv4 a3 a2 a1 a0, BytesToIPv4 m3 m2 m1 m0, true⟩)) ∧
    (∀ (s : String) (b0 b1 b2 b3 : Nat), s ≠ "dhcp" →
      ipv4Subnet.UnmarshalJSON s (.plainOk (some [b0, b1, b2, b3])) =
        some (.ok ⟨BytesToIPv4 b3 b2 b1 b0, 0xffffffff, true⟩)) ∧
    (∀ s : String, s ≠ "dhcp" →
      ipv4Subnet.UnmarshalJSON s .bad =
        some (.error ("Failed to parse address " ++ s))) ∧
    (∀ pr, ipv6Subnet.UnmarshalJSON "dhcp" pr = .ok ⟨zeroIPv6Addr, zeroIPv6Addr, false⟩) ∧
    (∀ (s : String) (a mask : List Nat), s ≠ "dhcp" →
      ipv6Subnet.UnmarshalJSON s (.cidrOk (some a) mask) =
        .ok ⟨copyBytes zeroIPv6Addr a, copyBytes zeroIPv6Addr mask, true⟩) ∧
    (∀ (s : String) (a : List Nat), s ≠ "dhcp" →
      ipv6Subnet.UnmarshalJSON s (.plainOk (some a)) =
        .ok ⟨copyBytes zeroIPv6Addr a, ipv6FullMask, true⟩) ∧
    (∀ s : String, s ≠ "dhcp" →
      ipv6Subnet.UnmarshalJSON s .bad = .error ("Failed to parse address " ++ s)) := by
  refine ⟨?_, ?_, ?_, ?_, ?_, ?_, ?_, ?_⟩
  · intro pr
    rfl
  · intro s a0 a1 a2 a3 m0 m1 m2 m3 h
    unfold ipv4Subnet.UnmarshalJSON
    rw [if_neg h]
    rfl
  · intro s b0 b1 b2 b3 h
    unfold ipv4Subnet.UnmarshalJSON
    rw [if_neg h]
    rfl
  · intro s h
    unfold ipv4Subnet.UnmarshalJSON
    rw [if_neg h]
  · intro pr
    rfl
  · intro s a mask h
    unfold ipv6Subnet.UnmarshalJSON
    rw [if_neg h]
  · intro s a h
    unfold ipv6Subnet.UnmarshalJSON
    rw [if_neg h]
  · intro s h
    unfold ipv6Subnet.UnmarshalJSON
    rw [if_neg h]

theorem witness_c7 :
    ipv4Subnet.UnmarshalJSON "192.168.1.0/24"
        (.cidrOk (some [192, 168, 1, 0]) [255, 255, 255, 0]) =
      some (.ok ⟨BytesToIPv4 0 1 168 192, BytesToIPv4 0 255 255 255, true⟩) :=
  spec_c7_subnet_unmarshal.2.1 "192.168.1.0/24" 192 168 1 0 255 255 255 0 (by decide)

/-- C9: `enableStaticPortForward` stores the forward mapping (subnet address
of the owning port, forwarded port) to (destination address, destination
port) in the owning port's table for the rule's protocol, stores the reverse
mapping in the opposite port's table exactly when the destination address is
non-zero, and on a PUBLIC port marks the forwarded port's slot in the port
map of the rule's family static with `finCount` 0 and
`terminationDirection` 0. -/
theorem spec_c9_static_forward_install :
    ∀ (port : ipPort) (fp : forwardedPort) (now : Int) (t : natTables),
      (fp.Protocol.ipv6 = false →
        ((port.enableStaticPortForward fp now t).translationTable4 fp.Protocol.id
            ⟨port.Subnet.Addr, fp.Port⟩ =
          some ⟨fp.Destination.Addr4, fp.Destination.Port⟩) ∧
        (fp.Destination.Addr4 ≠ 0 →
          (port.enableStaticPortForward fp now t).oppositeTable4 fp.Protocol.id
              ⟨fp.Destination.Addr4, fp.Destination.Port⟩ =
            some ⟨port.Subnet.Addr, fp.Port⟩) ∧
        (fp.Destination.Addr4 = 0 →
          (port.enableStaticPortForward fp now t).oppositeTable4 = t.oppositeTable4) ∧
        (port.Typ = .iPUBLIC →
          (port.enableStaticPortForward fp now t).portmap fp.Protocol.id fp.Port =
            ⟨now, 0, 0, true⟩) ∧
        (port.Typ = .iPRIVATE →
          (port.enableStaticPortForward fp now t).portmap = t.portmap)) ∧
      (fp.Protocol.ipv6 = true →
        ((port.enableStaticPortForward fp now t).translationTable6 fp.Protocol.id
            ⟨port.Subnet6.Addr, fp.Port⟩ =
          some ⟨fp.Destination.Addr6, fp.Destination.Port⟩) ∧
        (fp.Destination.Addr6 ≠ zeroIPv6Addr →
          (port.enableStaticPortForward fp now t).oppositeTable6 fp.Protocol.id
              ⟨fp.Destination.Addr6, fp.Destination.Port⟩ =
            some ⟨port.Subnet6.Addr, fp.Port⟩) ∧
        (fp.Destination.Addr6 = zeroIPv6Addr →
          (port.enableStaticPortForward fp now t).oppositeTable6 = t.oppositeTable6) ∧
        (port.Typ = .iPUBLIC →
          (port.enableStaticPortForward fp now t).portmap6 fp.Protocol.id fp.Port =
            ⟨now, 0, 0, true⟩) ∧
        (port.Typ = .iPRIVATE →
          (port.enableStaticPortForward fp now t).portmap6 = t.portmap6)) := by
  intro port fp now t
  constructor
  · intro hfam
    refine ⟨?_, ?_, ?_, ?_, ?_⟩
    · by_cases hz : fp.Destination.Addr4 = 0 <;> by_cases ht : port.Typ = .iPUBLIC <;>
        simp [ipPort.enableStaticPortForward, hfam, hz, ht]
    · intro h
      by_cases ht : port.Typ = .iPUBLIC <;>
        simp [ipPort.enableStaticPortForward, hfam, h, ht]
    · intro h
      by_cases ht : port.Typ = .iPUBLIC <;>
        simp [ipPort.enableStaticPortForward, hfam, h, ht]
    · intro h
      by_cases hz : fp.Destination.Addr4 = 0 <;>
        simp [ipPort.enableStaticPortForward, hfam, hz, h]
    · intro h
      by_cases hz : fp.Destination.Addr4 = 0 <;>
        simp [ipPort.enableStaticPortForward, hfam, hz, h]
  · intro hfam
    refine ⟨?_, ?_, ?_, ?_, ?_⟩
    · by_cases hz : fp.Destination.Addr6 = zeroIPv6Addr <;>
        by_cases ht : port.Typ = .iPUBLIC <;>
        simp [ipPort.enableStaticPortForward, hfam, hz, ht]
    · intro h
      by_cases ht : port.Typ = .iPUBLIC <;>
        simp [ipPort.enableStaticPortForward, hfam, h, ht]
    · intro h
      by_cases ht : port.Typ = .iPUBLIC <;>
        simp [ipPort.enableStaticPortForward, hfam, h, ht]
    · intro h
      by_cases hz : fp.Destination.Addr6 = zeroIPv6Addr <;>
        simp [ipPort.enableStaticPortForward, hfam, hz, h]
    · intro h
      by_cases hz : fp.Destination.Addr6 = zeroIPv6Addr <;>
        simp [ipPort.enableStaticPortForward, hfam, hz, h]

theorem witness_c9 :
    (samplePublicPort.enableStaticPortForward sampleRule4 0 emptyTables).translationTable4
        sampleRule4.Protocol.id ⟨samplePublicPort.Subnet.Addr, sampleRule4.Port⟩ =
      some ⟨sampleRule4.Destination.Addr4, sampleRule4.Destination.Port⟩ :=
  ((spec_c9_static_forward_install samplePublicPort sampleRule4 0 emptyTables).1 rfl).1

/-- C10 counterexample: at the non-nil two-byte input `[1, 2]` the code
neither returns an error nor the reversed-byte address: reading `in[3]` is
out of range, a panic, modelled by `none`. -/
theorem counterexample_c10 :
    convertIPv4 (some [1, 2]) = none ∧
    ¬ ∃ v, convertIPv4 (some [1, 2]) = some (.ok v) := by
  have hnone : convertIPv4 (some [1, 2]) = none := rfl
  refine ⟨hnone, ?_⟩
  rintro ⟨v, h⟩
  rw [hnone] at h
  cases h

/-- C10 amended: `convertIPv4` returns an error exactly when the slice is
`nil` or longer than 4 bytes; a slice of exactly 4 bytes yields the address
built from the bytes in reversed order; a non-nil slice shorter than 4 bytes
panics on the out-of-range read `in[3]`. -/
theorem spec_c10_amended :
    (∃ e, convertIPv4 none = some (.error e)) ∧
    (∀ b : List Nat, (∃ e, convertIPv4 (some b) = some (.error e)) ↔ b.length > 4) ∧
    (∀ b0 b1 b2 b3 : Nat,
      convertIPv4 (some [b0, b1, b2, b3]) = some (.ok (BytesToIPv4 b3 b2 b1 b0))) ∧
    (∀ b : List Nat, b.length < 4 → convertIPv4 (some b) = none) := by
  refine ⟨⟨_, rfl⟩, ?_, ?_, ?_⟩
  · intro b
    rcases b with _ | ⟨x0, _ | ⟨x1, _ | ⟨x2, _ | ⟨x3, _ | ⟨x4, rest⟩⟩⟩⟩⟩
    · simp [convertIPv4]
    · simp [convertIPv4]
    · simp [convertIPv4]
    · simp [convertIPv4]
    · simp [convertIPv4]
    · have hc : convertIPv4 (some (x0 :: x1 :: x2 :: x3 :: x4 :: rest)) =
          some (.error ("Only IPv4 addresses are supported now while your address has "
            ++ toString (x0 :: x1 :: x2 :: x3 :: x4 :: rest).length ++ " bytes")) := by
        simp only [convertIPv4]
        rw [if_pos (by simp only [List.length_cons]; omega)]
      constructor
      · intro _
        simp only [List.length_cons]
        omega
      · intro _
        exact ⟨_, hc⟩
  · intro b0 b1 b2 b3
    rfl
  · intro b hb
    rcases b with _ | ⟨x0, _ | ⟨x1, _ | ⟨x2, _ | ⟨x3, rest⟩⟩⟩⟩
    · rfl
    · rfl
    · rfl
    · rfl
    · simp only [List.length_cons] at hb
      omega

theorem witness_c10 : convertIPv4 (some [9]) = none :=
  spec_c10_amended.2.2.2 [9] (by decide)


end NffNat
